import Mathlib

/-!
Verification of the Smart-City-Data globe core (`src/js/script.js`).

Shallow embedding of the globe renderer's rotation-synchronization logic,
the geographic projection, the GeoJSON border renderer, and the page
navigation/quiz dispatch, together with theorems settling the spec claims.

Pointer coordinates, timestamps and rotation angles are modelled over `ℚ`
(the source manipulates them with `+`, `-`, `*`, `/` and rational literals
only, so exact rational arithmetic is a faithful model of the intended exact
semantics and keeps every state-machine definition decidable).  The
geographic projection uses `Real.sin`/`Real.cos` and is modelled over `ℝ`.
-/

namespace SmartCity

/-! Rotation state machine.

Embeds the module-level mutable state of the IIFE in `script.js`
(lines 137-184): the three scene objects' rotations, `lastTime`,
`isDragging` and `previousMousePosition`, plus the two event handlers
(`animate` and the pointer handlers) as a step function on that state.
Only the `x` and `y` Euler components are modelled: the source never
writes `rotation.z`, and `rotation.copy` copies a `z` that is identically
zero on every object involved. -/

/-- The (x, y) Euler rotation of a scene object (`pitch` = x, `yaw` = y). -/
structure Rot where
  x : ℚ
  y : ℚ
deriving DecidableEq

/-- Module-level mutable state of the globe IIFE. -/
structure GlobeState where
  earthRot : Rot
  cloudRot : Rot
  bordersRot : Rot
  lastTime : ℚ
  isDragging : Bool
  prevX : ℚ
  prevY : ℚ
deriving DecidableEq

/-- Initial state: all rotations zero (THREE.js default), `lastTime = 0`,
`isDragging = false`, `previousMousePosition = { x: 0, y: 0 }`. -/
def initState : GlobeState :=
  { earthRot := ⟨0, 0⟩, cloudRot := ⟨0, 0⟩, bordersRot := ⟨0, 0⟩
    lastTime := 0, isDragging := false, prevX := 0, prevY := 0 }

/-- The events that mutate the globe state: an animation-frame callback
with its timestamp, and the three pointer events with their client
coordinates. -/
inductive GlobeEvent where
  | animFrame (t : ℚ)
  | pointerdown (x y : ℚ)
  | pointerup
  | pointermove (x y : ℚ)
deriving DecidableEq

/-- One event-handler invocation (`script.js` lines 139-152 and 159-184).

* `animFrame t`: `delta = (t - lastTime) / 1000 || 0` (the `|| 0` fallback
  fires only when the computed delta is itself `0` — or `NaN`, which has no
  counterpart in exact arithmetic — so it is modelled by the `if`);
  `earthMesh.rotation.y += 0.08 * delta`;
  `cloudMesh.rotation.y += 0.095 * delta`;
  `bordersGroup.rotation.y = earthMesh.rotation.y`; `lastTime = t`.
* `pointerdown`: start a drag session and record the pointer position.
* `pointerup`: end the drag session.
* `pointermove`: if dragging, `deltaMove = current - previous`;
  `earthMesh.rotation.y += deltaMove.x * 0.005`;
  `earthMesh.rotation.x += deltaMove.y * 0.005 * 0.5`;
  `cloudMesh.rotation.copy(earthMesh.rotation)`;
  `bordersGroup.rotation.copy(earthMesh.rotation)`; record position. -/
def step (s : GlobeState) (e : GlobeEvent) : GlobeState :=
  match e with
  | .animFrame t =>
      let d := (t - s.lastTime) / 1000
      let delta := if d = 0 then 0 else d
      let earthY := s.earthRot.y + 0.08 * delta
      { s with
        earthRot := ⟨s.earthRot.x, earthY⟩
        cloudRot := ⟨s.cloudRot.x, s.cloudRot.y + 0.095 * delta⟩
        bordersRot := ⟨s.bordersRot.x, earthY⟩
        lastTime := t }
  | .pointerdown px py =>
      { s with isDragging := true, prevX := px, prevY := py }
  | .pointerup =>
      { s with isDragging := false }
  | .pointermove px py =>
      if s.isDragging then
        let dx := px - s.prevX
        let dy := py - s.prevY
        let e : Rot := ⟨s.earthRot.x + dy * 0.005 * 0.5, s.earthRot.y + dx * 0.005⟩
        { s with earthRot := e, cloudRot := e, bordersRot := e
                 prevX := px, prevY := py }
      else s

/-- Run a finite sequence of events from a state. -/
def run (s : GlobeState) (evs : List GlobeEvent) : GlobeState :=
  evs.foldl step s

lemma step_preserves_borders_eq (s : GlobeState) (e : GlobeEvent)
    (h : s.bordersRot = s.earthRot) :
    (step s e).bordersRot = (step s e).earthRot := by
  cases e with
  | animFrame t => simp only [step]; rw [h]
  | pointerdown px py => simpa only [step] using h
  | pointerup => simpa only [step] using h
  | pointermove px py =>
      simp only [step]
      split
      · rfl
      · exact h

lemma run_borders_eq (evs : List GlobeEvent) :
    ∀ s : GlobeState, s.bordersRot = s.earthRot →
      (run s evs).bordersRot = (run s evs).earthRot := by
  induction evs with
  | nil => intro s h; exact h
  | cons e evs ih =>
      intro s h
      exact ih (step s e) (step_preserves_borders_eq s e h)

/-- C1 (counterexample): the claim "after each animation-frame callback every
dependent layer — the cloud mesh AND the borders group — has an orientation
equal to the Earth mesh's" is false.  After a single animation tick at
timestamp 1000 (delta = 1 s) from the initial state, the cloud mesh has
`rotation.y = 0.095` while the Earth mesh has `rotation.y = 0.08`: `animate`
advances the clouds at their own rate (0.095) instead of copying the Earth's
rotation. -/
theorem C1_cloud_desync_counterexample :
    ¬ ((run initState [GlobeEvent.animFrame 1000]).cloudRot =
        (run initState [GlobeEvent.animFrame 1000]).earthRot) := by
  norm_num [run, step, initState, Rot.mk.injEq]

/-- C1 (amended): after every rotation-synchronizing call — indeed after every
event of any finite sequence of animation ticks and drag events from the
initial state — the borders group's orientation equals the Earth mesh's; and
after a pointer-move event during an active drag session the cloud mesh's
orientation also equals the Earth mesh's (the cloud mesh is NOT synchronized
by animation ticks, where it advances at its own rate 0.095 vs 0.08). -/
theorem C1_sync_invariant :
    (∀ evs : List GlobeEvent,
        (run initState evs).bordersRot = (run initState evs).earthRot) ∧
    (∀ (er cr br : Rot) (lt px py p q : ℚ),
        (step ⟨er, cr, br, lt, true, px, py⟩ (.pointermove p q)).cloudRot =
          (step ⟨er, cr, br, lt, true, px, py⟩ (.pointermove p q)).earthRot) := by
  constructor
  · intro evs
    exact run_borders_eq evs initState rfl
  · intro er cr br lt px py p q
    simp [step]

/-- C3 (counterexample): the claim "on the very first display-refresh callback
the elapsed-time delta is treated as 0, so the yaw is unchanged" is false.
`lastTime` is initialized to `0`, not to an "absent" marker, so the first
callback at timestamp 1000 computes `delta = (1000 - 0)/1000 = 1` and
advances the Earth's yaw from 0 to 0.08. -/
theorem C3_first_tick_counterexample :
    ¬ ((run initState [GlobeEvent.animFrame 1000]).earthRot.y =
        initState.earthRot.y) := by
  norm_num [run, step, initState]

/-- C3 (amended): every animation-frame callback — including the first —
advances the yaw by `0.08 * (t - lastTime)/1000` and stores `t` as the new
`lastTime`; since `lastTime` starts at `0` (not "absent"), the first callback
advances the yaw by `0.08 * t/1000`, which is nonzero whenever its timestamp
`t` is nonzero (the `|| 0` fallback only applies to a delta that is already
`0`, or `NaN`). -/
theorem C3_tick_contract :
    (∀ (s : GlobeState) (t : ℚ),
        (step s (.animFrame t)).earthRot.y =
            s.earthRot.y + 0.08 * ((t - s.lastTime) / 1000) ∧
        (step s (.animFrame t)).lastTime = t) ∧
    initState.lastTime = 0 := by
  refine ⟨fun s t => ⟨?_, rfl⟩, rfl⟩
  simp only [step]
  split
  · rename_i h
    rw [h]
  · rfl

/-- C7: from any starting state, a pointer-down at (100,100) followed by a
pointer-move to (150,130) increases the Earth mesh's yaw (`rotation.y`) by
exactly `50 * 0.005 = 0.25` and its pitch (`rotation.x`) by exactly
`30 * 0.005 * 0.5 = 0.075`, and afterwards both dependent layers (cloud mesh
and borders group) have orientation equal to the Earth mesh's. -/
theorem C7_drag_delta (s : GlobeState) :
    (run s [GlobeEvent.pointerdown 100 100, GlobeEvent.pointermove 150 130]).earthRot.y
        = s.earthRot.y + 0.25 ∧
    (run s [GlobeEvent.pointerdown 100 100, GlobeEvent.pointermove 150 130]).earthRot.x
        = s.earthRot.x + 0.075 ∧
    (run s [GlobeEvent.pointerdown 100 100, GlobeEvent.pointermove 150 130]).cloudRot
        = (run s [GlobeEvent.pointerdown 100 100, GlobeEvent.pointermove 150 130]).earthRot ∧
    (run s [GlobeEvent.pointerdown 100 100, GlobeEvent.pointermove 150 130]).bordersRot
        = (run s [GlobeEvent.pointerdown 100 100, GlobeEvent.pointermove 150 130]).earthRot := by
  refine ⟨?_, ?_, ?_, ?_⟩ <;> simp [run, step] <;> norm_num

/-! Geographic projection.

Embeds `latLonToVector3` (`script.js` lines 65-74) over exact reals. -/

/-- A THREE.Vector3 value (only ever constructed, never mutated, by the
border-drawing code). -/
structure Vec3 where
  x : ℝ
  y : ℝ
  z : ℝ

/-- Source function `latLonToVector3(lat, lon, radius)`:
`phi = (90 - lat) * (Math.PI / 180)`, `theta = (lon + 180) * (Math.PI / 180)`,
`x = -radius * Math.sin(phi) * Math.cos(theta)`, `y = radius * Math.cos(phi)`,
`z = radius * Math.sin(phi) * Math.sin(theta)`. -/
noncomputable def latLonToVector3 (lat lon radius : ℝ) : Vec3 :=
  let phi := (90 - lat) * (Real.pi / 180)
  let theta := (lon + 180) * (Real.pi / 180)
  { x := -radius * Real.sin phi * Real.cos theta
    y := radius * Real.cos phi
    z := radius * Real.sin phi * Real.sin theta }

/-- C2: for every latitude in [-90,90], longitude in [-180,180] and radius > 0,
`latLonToVector3` computes exactly the spec's formulas: with
`phi = (90 - lat)·π/180` and `theta = (lon + 180)·π/180`, the result is
`(-radius·sin(phi)·cos(theta), radius·cos(phi), radius·sin(phi)·sin(theta))`,
including the sign of `x` and the 180-degree longitude offset. -/
theorem C2_projection_formula (lat lon radius : ℝ)
    (hlat₁ : -90 ≤ lat) (hlat₂ : lat ≤ 90)
    (hlon₁ : -180 ≤ lon) (hlon₂ : lon ≤ 180) (hr : 0 < radius) :
    latLonToVector3 lat lon radius =
      { x := -radius * Real.sin ((90 - lat) * (Real.pi / 180)) *
              Real.cos ((lon + 180) * (Real.pi / 180))
        y := radius * Real.cos ((90 - lat) * (Real.pi / 180))
        z := radius * Real.sin ((90 - lat) * (Real.pi / 180)) *
              Real.sin ((lon + 180) * (Real.pi / 180)) } := rfl

/-- Witness for C2 at (lat, lon, radius) = (0, 0, 1). -/
theorem C2_projection_formula_witness :
    ((-90 : ℝ) ≤ 0 ∧ (0 : ℝ) ≤ 90 ∧ (-180 : ℝ) ≤ 0 ∧ (0 : ℝ) ≤ 180 ∧
        (0 : ℝ) < 1) ∧
    latLonToVector3 0 0 1 =
      { x := -1 * Real.sin ((90 - 0) * (Real.pi / 180)) *
              Real.cos ((0 + 180) * (Real.pi / 180))
        y := 1 * Real.cos ((90 - 0) * (Real.pi / 180))
        z := 1 * Real.sin ((90 - 0) * (Real.pi / 180)) *
              Real.sin ((0 + 180) * (Real.pi / 180)) } :=
  ⟨⟨by norm_num, by norm_num, by norm_num, by norm_num, by norm_num⟩,
    C2_projection_formula 0 0 1 (by norm_num) (by norm_num) (by norm_num)
      (by norm_num) (by norm_num)⟩

/-- C8: for every latitude in [-90,90], longitude in [-180,180] and radius
r > 0, the projected point lies at Euclidean distance exactly r from the
origin: x² + y² + z² = r² over exact real arithmetic. -/
theorem C8_projection_on_sphere (lat lon r : ℝ)
    (hlat₁ : -90 ≤ lat) (hlat₂ : lat ≤ 90)
    (hlon₁ : -180 ≤ lon) (hlon₂ : lon ≤ 180) (hr : 0 < r) :
    (latLonToVector3 lat lon r).x ^ 2 + (latLonToVector3 lat lon r).y ^ 2 +
      (latLonToVector3 lat lon r).z ^ 2 = r ^ 2 := by
  have h1 := Real.sin_sq_add_cos_sq ((90 - lat) * (Real.pi / 180))
  have h2 := Real.sin_sq_add_cos_sq ((lon + 180) * (Real.pi / 180))
  simp only [latLonToVector3]
  linear_combination (r ^ 2 * Real.sin ((90 - lat) * (Real.pi / 180)) ^ 2) * h2 +
    r ^ 2 * h1

/-- Witness for C8 at (lat, lon, r) = (0, 0, 1). -/
theorem C8_projection_on_sphere_witness :
    ((-90 : ℝ) ≤ 0 ∧ (0 : ℝ) ≤ 90 ∧ (-180 : ℝ) ≤ 0 ∧ (0 : ℝ) ≤ 180 ∧
        (0 : ℝ) < 1) ∧
    (latLonToVector3 0 0 1).x ^ 2 + (latLonToVector3 0 0 1).y ^ 2 +
      (latLonToVector3 0 0 1).z ^ 2 = 1 ^ 2 :=
  ⟨⟨by norm_num, by norm_num, by norm_num, by norm_num, by norm_num⟩,
    C8_projection_on_sphere 0 0 1 (by norm_num) (by norm_num) (by norm_num)
      (by norm_num) (by norm_num)⟩

/-! Border renderer.

Embeds `drawCountryLine` (`script.js` lines 77-92) and the fetch/dispatch
chain (lines 106-125).  JavaScript values reachable from a GeoJSON
`coordinates` payload are modelled by `Coord` (a number or an array).
Mutation of `bordersGroup` is modelled by returning the list of added
`LineLoop` primitives; a thrown `TypeError` (e.g. destructuring a
non-iterable, or `forEach` on a non-array) is modelled by an error message
in the second component, with the primitives already added before the throw
kept in the first component (the exception propagates to the promise chain's
`catch`).  An element of a ring that is an array without two leading numbers
would yield `NaN` coordinates in JavaScript; `NaN` has no counterpart in
`ℝ`, so it is likewise modelled as an error (no claim exercises that path). -/

/-- A JavaScript value inside a `coordinates` payload: a number or an array. -/
inductive Coord where
  | num : ℝ → Coord
  | arr : List Coord → Coord

/-- A `THREE.LineLoop` primitive added to `bordersGroup`: the projected
vertices of one ring (the loop is closed implicitly by the primitive type). -/
structure LineLoop where
  points : List Vec3

/-- The test `typeof coords[0][0] === 'number'` (`script.js` line 80):
indexing a number or an empty array gives `undefined`, whose `typeof` is not
`'number'`. -/
def firstOfFirstIsNumber : List Coord → Bool
  | [] => false
  | c :: _ =>
    match c with
    | .num _ => false
    | .arr [] => false
    | .arr (d :: _) => match d with | .num _ => true | .arr _ => false

/-- The destructuring `([lon, lat])` of a ring element (`script.js` line 84):
a number is not iterable (TypeError); an array yields its first two
elements, which must be numbers for the projection to be a real point. -/
def destructureLonLat : Coord → Except String (ℝ × ℝ)
  | .num _ => .error "TypeError: coordinate pair is not iterable"
  | .arr (Coord.num lon :: Coord.num lat :: _) => .ok (lon, lat)
  | .arr _ => .error "coordinate pair does not hold two leading numbers"

/-- Projection of one ring (`script.js` lines 83-86): for each `[lon, lat]`
element push `latLonToVector3(lat, lon, radius + 0.5)`. `forEach` on a
non-array throws. -/
noncomputable def projectRing (ring : Coord) (radius : ℝ) :
    Except String (List Vec3) :=
  match ring with
  | .num _ => .error "TypeError: ring.forEach is not a function"
  | .arr elems =>
      elems.mapM fun e => do
        let (lon, lat) ← destructureLonLat e
        pure (latLonToVector3 lat lon (radius + 0.5))

/-- Run a side-effecting loop body over a list, accumulating the primitives
each iteration adds, stopping at the first thrown error but keeping what was
already added (JavaScript `forEach` semantics under an exception). -/
def seqRun {α β : Type _} (f : α → List β × Option String) :
    List α → List β × Option String
  | [] => ([], none)
  | a :: rest =>
      match f a with
      | (out, some e) => (out, some e)
      | (out, none) => (out ++ (seqRun f rest).1, (seqRun f rest).2)

/-- Source function `drawCountryLine(coords, material, radius)` (`script.js`
lines 77-92); the material plays no geometric role and is omitted.  Early
return on a non-array or empty `coords`; otherwise wrap a bare ring
(detected by `typeof coords[0][0] === 'number'`) into a singleton ring list
and emit one `LineLoop` of projected vertices per ring into `bordersGroup`. -/
noncomputable def drawCountryLine (coords : Coord) (radius : ℝ) :
    List LineLoop × Option String :=
  match coords with
  | .num _ => ([], none)
  | .arr [] => ([], none)
  | .arr (c :: cs) =>
      let rings := if firstOfFirstIsNumber (c :: cs) then [Coord.arr (c :: cs)]
        else c :: cs
      seqRun (fun ring =>
        match projectRing ring radius with
        | .error e => ([], some e)
        | .ok pts => ([⟨pts⟩], none)) rings

/-- A GeoJSON geometry object: a `type` tag and a `coordinates` payload. -/
structure Geometry where
  type : String
  coordinates : Coord

/-- A GeoJSON feature; `geometry` is `none` when null or missing. -/
structure Feature where
  geometry : Option Geometry

/-- Per-feature dispatch (`script.js` lines 112-121): skip a null geometry,
draw `Polygon` coordinates directly, iterate `MultiPolygon` polygons, and
silently skip any other geometry type. -/
noncomputable def processFeature (radius : ℝ) (f : Feature) :
    List LineLoop × Option String :=
  match f.geometry with
  | none => ([], none)
  | some geom =>
      if geom.type = "Polygon" then drawCountryLine geom.coordinates radius
      else if geom.type = "MultiPolygon" then
        match geom.coordinates with
        | .num _ => ([], some "TypeError: coordinates.forEach is not a function")
        | .arr polys => seqRun (fun poly => drawCountryLine poly radius) polys
      else ([], none)

/-- The `geojson.features.forEach(...)` loop (`script.js` lines 112-121). -/
noncomputable def processFeatures (features : List Feature) (radius : ℝ) :
    List LineLoop × Option String :=
  seqRun (processFeature radius) features

/-- Source constant `EARTH_RADIUS = 200`. -/
noncomputable def EARTH_RADIUS : ℝ := 200

/-- Outcome of the one-shot boundary-data fetch: a transport error, or a
response with its `ok` flag, numeric `status`, and parsed body (`r.json()`
rejection or a missing `features` array are both body errors). -/
inductive FetchResult where
  | networkError (msg : String)
  | response (ok : Bool) (status : ℕ) (body : Except String (List Feature))

/-- The startup promise chain (`script.js` lines 106-125): on a transport
error reject; inside the first `then`, `if (!r.ok) throw new Error('Failed
to load GeoJSON: ' + r.status)`; inside the second, draw all features; any
rejection or thrown error reaches the single `catch`, which logs exactly one
`console.warn('Could not load or draw country borders:', err)`.  The result
is the final content of `bordersGroup` together with the list of logged
warnings; the function is total — no failure propagates out of the chain. -/
noncomputable def startup (res : FetchResult) : List LineLoop × List String :=
  match res with
  | .networkError msg =>
      ([], ["Could not load or draw country borders: " ++ msg])
  | .response ok status body =>
      if ok then
        match body with
        | .error e => ([], ["Could not load or draw country borders: " ++ e])
        | .ok features =>
            match processFeatures features EARTH_RADIUS with
            | (lines, none) => (lines, [])
            | (lines, some e) =>
                (lines, ["Could not load or draw country borders: " ++ e])
      else
        ([], ["Could not load or draw country borders: " ++
          "Failed to load GeoJSON: " ++ toString status])

/-- A GeoJSON coordinate pair `[lon, lat]`. -/
def coordPair (lon lat : ℝ) : Coord :=
  Coord.arr [Coord.num lon, Coord.num lat]

/-- A ring of four coordinate pairs. -/
def ringOf4 (p1 p2 p3 p4 : ℝ × ℝ) : Coord :=
  Coord.arr [coordPair p1.1 p1.2, coordPair p2.1 p2.2,
    coordPair p3.1 p3.2, coordPair p4.1 p4.2]

lemma seqRun_middle_skip {α β : Type _} (f : α → List β × Option String)
    (a : α) (h : f a = ([], none)) (xs ys : List α) :
    seqRun f (xs ++ a :: ys) = seqRun f (xs ++ ys) := by
  induction xs with
  | nil =>
      simp only [List.nil_append, seqRun, h, List.nil_append]
  | cons x xs ih =>
      rcases hfx : f x with ⟨out, err⟩
      cases err with
      | none => simp only [List.cons_append, seqRun, hfx, List.append_eq, ih]
      | some e => simp only [List.cons_append, seqRun, hfx]

/-- C4: a MultiPolygon feature whose coordinate payload holds 2 rings of 4
coordinate pairs each makes the border renderer emit exactly 2 line-loop
primitives into the borders group, each with the 4 vertices of its ring
projected at radius `EARTH_RADIUS + 0.5` (the z-fighting offset), and no
error. -/
theorem C4_multipolygon_two_rings (p1 p2 p3 p4 q1 q2 q3 q4 : ℝ × ℝ) :
    processFeature EARTH_RADIUS
      { geometry := some
          { type := "MultiPolygon"
            coordinates := Coord.arr
              [Coord.arr [ringOf4 p1 p2 p3 p4, ringOf4 q1 q2 q3 q4]] } } =
      ([{ points := [latLonToVector3 p1.2 p1.1 (EARTH_RADIUS + 0.5),
                     latLonToVector3 p2.2 p2.1 (EARTH_RADIUS + 0.5),
                     latLonToVector3 p3.2 p3.1 (EARTH_RADIUS + 0.5),
                     latLonToVector3 p4.2 p4.1 (EARTH_RADIUS + 0.5)] },
        { points := [latLonToVector3 q1.2 q1.1 (EARTH_RADIUS + 0.5),
                     latLonToVector3 q2.2 q2.1 (EARTH_RADIUS + 0.5),
                     latLonToVector3 q3.2 q3.1 (EARTH_RADIUS + 0.5),
                     latLonToVector3 q4.2 q4.1 (EARTH_RADIUS + 0.5)] }],
        none) := by
  rfl

/-- C5: a feature whose geometry is null/missing, or whose geometry type is
neither "Polygon" nor "MultiPolygon", contributes zero primitives and no
error, and the features loop processes the remaining features exactly as if
the bad feature were absent. -/
theorem C5_bad_feature_skipped (f : Feature) (xs ys : List Feature)
    (radius : ℝ)
    (h : f.geometry = none ∨
      ∃ g, f.geometry = some g ∧ g.type ≠ "Polygon" ∧ g.type ≠ "MultiPolygon") :
    processFeature radius f = ([], none) ∧
    processFeatures (xs ++ f :: ys) radius = processFeatures (xs ++ ys) radius := by
  have hskip : processFeature radius f = ([], none) := by
    rcases h with hnone | ⟨g, hg, hp, hmp⟩
    · simp [processFeature, hnone]
    · simp [processFeature, hg, hp, hmp]
  exact ⟨hskip, seqRun_middle_skip (processFeature radius) f hskip xs ys⟩

/-- Witness for C5: a null-geometry feature amid a one-feature tail. -/
theorem C5_bad_feature_skipped_witness :
    ((⟨none⟩ : Feature).geometry = none ∨
      ∃ g, (⟨none⟩ : Feature).geometry = some g ∧
        g.type ≠ "Polygon" ∧ g.type ≠ "MultiPolygon") ∧
    (processFeature 200 ⟨none⟩ = ([], none) ∧
      processFeatures ([] ++ ⟨none⟩ ::
          [⟨some ⟨"MultiPolygon", Coord.arr []⟩⟩]) 200 =
        processFeatures ([] ++ [⟨some ⟨"MultiPolygon", Coord.arr []⟩⟩]) 200) :=
  ⟨Or.inl rfl,
    C5_bad_feature_skipped ⟨none⟩ [] [⟨some ⟨"MultiPolygon", Coord.arr []⟩⟩]
      200 (Or.inl rfl)⟩

/-- C6: a failed boundary-data fetch — a transport error, or any response
with `ok = false` (e.g. HTTP 500) — leaves the borders group empty and logs
exactly one warning; `startup` is a total function, so no unhandled failure
propagates out of the startup sequence. -/
theorem C6_fetch_failure_degrades (msg : String) (status : ℕ)
    (body : Except String (List Feature)) :
    (startup (.networkError msg)).1 = [] ∧
    (startup (.networkError msg)).2.length = 1 ∧
    (startup (.response false status body)).1 = [] ∧
    (startup (.response false status body)).2.length = 1 :=
  ⟨rfl, rfl, rfl, rfl⟩

/-- C10: called on a coordinates payload that is not an array, or is an
empty array, `drawCountryLine` returns early: it adds nothing to the borders
group and throws no error, so the ring-shape test `coords[0][0]` is only
reached on non-empty arrays. -/
theorem C10_drawCountryLine_guard (coords : Coord) (radius : ℝ)
    (h : (∃ x, coords = Coord.num x) ∨ coords = Coord.arr []) :
    drawCountryLine coords radius = ([], none) := by
  rcases h with ⟨x, hx⟩ | hemp
  · rw [hx]; rfl
  · rw [hemp]; rfl

/-- Witness for C10 at the non-array payload `5`. -/
theorem C10_drawCountryLine_guard_witness :
    ((∃ x, Coord.num 5 = Coord.num x) ∨ Coord.num 5 = Coord.arr []) ∧
    drawCountryLine (Coord.num 5) 200 = ([], none) :=
  ⟨Or.inl ⟨5, rfl⟩,
    C10_drawCountryLine_guard (Coord.num 5) 200 (Or.inl ⟨5, rfl⟩)⟩

/-! Navigation and quiz dispatch.

Embeds `showSection` (`script.js` lines 201-279) and `handleQuiz`
(lines 282-288).  The DOM is modelled by the list of element ids it holds;
`showSection` is modelled by its state change (the `currentSectionId`
module variable, updated only when the target element exists) together with
the externally visible effects it performs: which section loses the
`active` class, which gains it, which per-section set-up calls fire, and the
hash pushed via `history.pushState` (always `#targetId`, performed
unconditionally). -/

/-- The host document, as the list of element ids present in it. -/
structure Document where
  ids : List String

/-- The per-section set-up calls `showSection` can fire (lines 231-275). -/
inductive SetupCall where
  | chartSetup
  | airQualityChartSetup
  | interactiveButtonsSetup
  | medellinAnimsRestart
  | quizTransitionSetup
  | solutionsNavSetup
  | actionFormSetup
deriving DecidableEq

/-- Which set-up calls fire for a target id (lines 231-275). -/
def sectionSetups (targetId : String) : List SetupCall :=
  (if targetId = "correct_metrics" then [SetupCall.chartSetup] else []) ++
  (if targetId = "california-forecast" then [SetupCall.airQualityChartSetup] else []) ++
  (if targetId = "california-case" then [SetupCall.interactiveButtonsSetup] else []) ++
  (if targetId = "medellin-case" then [SetupCall.medellinAnimsRestart] else []) ++
  (if targetId = "quiz" then [SetupCall.quizTransitionSetup] else []) ++
  (if targetId = "solutions" then [SetupCall.solutionsNavSetup] else []) ++
  (if targetId = "applications" then [SetupCall.actionFormSetup] else [])

/-- The externally visible effects of one `showSection` call. -/
structure NavEffects where
  deactivated : List String
  activated : List String
  setups : List SetupCall
  pushedHash : String
deriving DecidableEq

/-- The module-level navigation state: the `currentSectionId` variable. -/
structure NavState where
  currentSectionId : String
deriving DecidableEq

/-- Source function `showSection(targetId)` (lines 201-279): hide the
current section if its element exists, show the target and record it as
current if its element exists, fire the target's set-up calls, and push
`#targetId` onto the history. -/
def showSection (doc : Document) (st : NavState) (targetId : String) :
    NavState × NavEffects :=
  let deactivated := if st.currentSectionId ∈ doc.ids
    then [st.currentSectionId] else []
  let activated := if targetId ∈ doc.ids then [targetId] else []
  let st' := if targetId ∈ doc.ids then { currentSectionId := targetId } else st
  (st', { deactivated := deactivated, activated := activated,
          setups := sectionSetups targetId, pushedHash := targetId })

/-- Source function `handleQuiz(option)` (lines 282-288): the answer
`'correct'` is special-cased to `showSection('correct')`; every other answer
goes to `showSection(option)`. -/
def handleQuiz (doc : Document) (st : NavState) (option : String) :
    NavState × NavEffects :=
  if option = "correct" then showSection doc st "correct"
  else showSection doc st option

/-- C9: `handleQuiz` is extensionally equal to `showSection` — for every
document, navigation state and option value, the special-cased branch
navigates exactly where the general branch would, so the two functions
induce the same navigation behaviour on all inputs. -/
theorem C9_handleQuiz_eq_showSection (doc : Document) (st : NavState)
    (option : String) :
    handleQuiz doc st option = showSection doc st option := by
  unfold handleQuiz
  split
  · rename_i h
    rw [h]
  · rfl

end SmartCity
